import Mathlib

/-!
Verification development for the FabFlow Studio backend
(`backend/app` Python sources).

Shallow embedding conventions:
* Python floats that carry durations/delays are modelled as `ℚ`.
* Python exceptions are modelled with `Except` / explicit error fields.
* Pydantic models become Lean structures with the source field names
  (the `aspect_ratio` field is rendered as `aspect`).
* External effects (the FIBO image API, file downloads, `asyncio.sleep`,
  the ffmpeg subprocess) are modelled by explicit oracle parameters or by
  recording the requested action (sleep lists, status writes) as data.
-/

namespace FabFlow

/-! ## models.py (v1 models used by the compositor and frame generator) -/

/-- Model of `FIBOPrompt` from `models.py`: the per-scene prompt data. -/
structure FIBOPrompt where
  prompt : String
  camera_angle : String
  lighting_style : String
  subject_position : String
  color_palette : Option (List String)
  mood : Option String
deriving DecidableEq

/-- Model of `Scene` from `models.py`: one storyboard scene. -/
structure Scene where
  scene_number : Int
  duration : ℚ
  transition : String
  fibo_prompt : FIBOPrompt
deriving DecidableEq

/-- Model of `Storyboard` from `models.py` (`aspect` models `aspect_ratio`). -/
structure Storyboard where
  brand_name : String
  product_name : String
  total_duration : Int
  aspect : String
  scenes : List Scene
deriving DecidableEq

/-! ## frame_generator.py: frame data model and helpers -/

/-- Model of `GeneratedFrame` from `frame_generator.py`. -/
structure GeneratedFrame where
  scene_number : Int
  frame_index : Int
  image_url : String
  local_path : String
deriving DecidableEq

/-- Model of `FrameGenerationResult` from `frame_generator.py`. -/
structure FrameGenerationResult where
  success : Bool
  frames : List GeneratedFrame
  errors : List String
deriving DecidableEq

/-- Model of `calculate_frame_count`: `max(1, int(duration * fps))`.
`int()` truncation toward zero is `Rat.floor` for the non-negative
durations used here; we use `⌊·⌋` on the product. -/
def calculate_frame_count (duration : ℚ) (fps : Int) : Int :=
  max 1 ⌊duration * fps⌋

/-- Model of `get_dimensions_for_aspect_ratio`: pixel dimensions for an
aspect-ratio string, defaulting to the vertical 1080x1920. -/
def get_dimensions_for_aspect (a : String) : Int × Int :=
  if a = "9:16" then (1080, 1920)
  else if a = "1:1" then (1080, 1080)
  else if a = "16:9" then (1920, 1080)
  else (1080, 1920)

/-! ## video_compositor.py: transition selection and the xfade chain of
`build_ffmpeg_command` -/

/-- Model of `get_xfade_transition`: storyboard transition type to ffmpeg
xfade transition name, defaulting to `"fade"`. -/
def get_xfade_transition (transition_type : String) : String :=
  if transition_type = "fade" then "fade"
  else if transition_type = "dissolve" then "dissolve"
  else if transition_type = "cross-dissolve" then "dissolve"
  else if transition_type = "cut" then "fade"
  else if transition_type = "slide" then "slideleft"
  else "fade"

/-- Model of `get_transition_duration`: 0.1 s for `"cut"`, 0.5 s otherwise. -/
def get_transition_duration (transition_type : String) : ℚ :=
  if transition_type = "cut" then 1/10 else 1/2

/-- One per-clip processing chain of `build_ffmpeg_command` (scale, pad,
setsar, fps, trim to the scene duration), recorded structurally. -/
structure ClipFilter where
  width : Int
  height : Int
  duration : ℚ
deriving DecidableEq

/-- One xfade operation of the `build_ffmpeg_command` filter graph,
recorded structurally: the ffmpeg transition name, the transition
duration, and the `offset=` value. -/
structure XfadeOp where
  name : String
  duration : ℚ
  offset : ℚ
deriving DecidableEq

/-- Model of the per-frame filter parts of `build_ffmpeg_command`
(the `zip(frames, storyboard.scenes)` loop). -/
def build_clip_filters (frames : List GeneratedFrame) (scenes : List Scene)
    (width height : Int) : List ClipFilter :=
  (frames.zip scenes).map (fun p => ⟨width, height, p.2.duration⟩)

/-- Loop body of the xfade chain of `build_ffmpeg_command`: walking
consecutive scene pairs while tracking `cumulative_duration`; each step
emits `offset = max(0, cumulative - transition_duration)` and continues
with `cumulative = offset + next_scene.duration`. -/
def xfade_chain_go (cumulative : ℚ) : List Scene → List XfadeOp
  | s1 :: s2 :: rest =>
      let td := get_transition_duration s1.transition
      let off := max 0 (cumulative - td)
      ⟨get_xfade_transition s1.transition, td, off⟩ ::
        xfade_chain_go (off + s2.duration) (s2 :: rest)
  | _ => []

/-- The xfade chain of `build_ffmpeg_command`, starting from
`cumulative_duration = scenes[0].duration`. -/
def xfade_chain : List Scene → List XfadeOp
  | [] => []
  | s :: rest => xfade_chain_go s.duration (s :: rest)

/-- The xfade operations of the filter graph built by
`build_ffmpeg_command`: present exactly when transitions are enabled and
there is more than one frame (otherwise the clips are concatenated with
`concat` and no xfade appears).  The textual rendering of the filter
graph is not modelled; the operations and their parameters are. -/
def build_ffmpeg_xfades (frames : List GeneratedFrame) (storyboard : Storyboard)
    (enable_transitions : Bool) : List XfadeOp :=
  if enable_transitions = true ∧ 1 < frames.length then
    xfade_chain storyboard.scenes
  else []

/-- Specification-side offset sequence, written exactly as the spec words
it: `offset_i = max(0, cumulative_i - td_i)` and
`cumulative_(i+1) = offset_i + duration_(i+1)`, with `cumulative_1` the
duration of the first scene.  First argument list: the transition durations
`td_i` (scenes 1..n-1); second: the durations of the following scenes
(scenes 2..n). -/
def spec_offsets (cumulative : ℚ) : List ℚ → List ℚ → List ℚ
  | td :: tds, d :: ds =>
      let off := max 0 (cumulative - td)
      off :: spec_offsets (off + d) tds ds
  | _, _ => []

theorem xfade_chain_go_length (l : List Scene) :
    ∀ c, (xfade_chain_go c l).length = l.length - 1 := by
  induction l with
  | nil => intro c; simp [xfade_chain_go]
  | cons s l ih =>
      intro c
      cases l with
      | nil => simp [xfade_chain_go]
      | cons s2 rest =>
          simpa [xfade_chain_go] using ih (max 0 (c - get_transition_duration s.transition) + s2.duration)

theorem xfade_chain_go_offsets (l : List Scene) :
    ∀ c, (xfade_chain_go c l).map XfadeOp.offset =
      spec_offsets c (l.dropLast.map (fun t => get_transition_duration t.transition))
        ((l.drop 1).map Scene.duration) := by
  induction l with
  | nil => intro c; simp [xfade_chain_go, spec_offsets]
  | cons s l ih =>
      intro c
      cases l with
      | nil => simp [xfade_chain_go, spec_offsets]
      | cons s2 rest =>
          simpa [xfade_chain_go, spec_offsets] using
            ih (max 0 (c - get_transition_duration s.transition) + s2.duration)

theorem xfade_chain_go_offset_nonneg (l : List Scene) :
    ∀ c, ∀ op ∈ xfade_chain_go c l, 0 ≤ op.offset := by
  induction l with
  | nil => intro c op h; simp [xfade_chain_go] at h
  | cons s l ih =>
      intro c op h
      cases l with
      | nil => simp [xfade_chain_go] at h
      | cons s2 rest =>
          simp only [xfade_chain_go, List.mem_cons] at h
          rcases h with h | h
          · subst h; exact le_max_left 0 _
          · exact ih _ op h

/-- C1: with N frames (N ≥ 2), N scenes, and transitions enabled,
`build_ffmpeg_command` emits exactly N-1 pairwise xfade operations; the
offsets follow the spec recurrence `offset_i = max(0, cumulative_i - td_i)`
with `cumulative_1` the duration of the first scene, `td_i` = 0.5 s (0.1 s for
a `"cut"` transition), and `cumulative_(i+1) = offset_i + duration_(i+1)`;
and every emitted offset is non-negative. -/
theorem c1_xfade_transition_offsets (frames : List GeneratedFrame) (sb : Storyboard)
    (hlen : frames.length = sb.scenes.length) (h2 : 2 ≤ frames.length) :
    (build_ffmpeg_xfades frames sb true).length = sb.scenes.length - 1 ∧
    (∀ s rest, sb.scenes = s :: rest →
      (build_ffmpeg_xfades frames sb true).map XfadeOp.offset =
        spec_offsets s.duration
          (sb.scenes.dropLast.map (fun t => get_transition_duration t.transition))
          ((sb.scenes.drop 1).map Scene.duration)) ∧
    (∀ op ∈ build_ffmpeg_xfades frames sb true, 0 ≤ op.offset) := by
  have hcond : (true = true ∧ 1 < frames.length) := ⟨rfl, lt_of_lt_of_le one_lt_two h2⟩
  have hbuild : build_ffmpeg_xfades frames sb true = xfade_chain sb.scenes := by
    simp [build_ffmpeg_xfades, hcond.2]
  refine ⟨?_, ?_, ?_⟩
  · rw [hbuild]
    cases hsc : sb.scenes with
    | nil => simp [xfade_chain]
    | cons s rest => simpa [xfade_chain] using xfade_chain_go_length (s :: rest) s.duration
  · intro s rest hsc
    rw [hbuild, hsc]
    simpa [xfade_chain, hsc] using xfade_chain_go_offsets (s :: rest) s.duration
  · intro op hop
    rw [hbuild] at hop
    cases hsc : sb.scenes with
    | nil => rw [hsc] at hop; simp [xfade_chain] at hop
    | cons s rest =>
        rw [hsc] at hop
        exact xfade_chain_go_offset_nonneg (s :: rest) s.duration op (by simpa [xfade_chain] using hop)

/-- Concrete prompt used by witness storyboards. -/
def promptW : FIBOPrompt :=
  ⟨"A product shot", "close-up", "soft", "center", none, none⟩

/-- Concrete three-scene storyboard for the C1 witness: durations 3, 5/2
and 2 seconds, with a fade and then a cut transition. -/
def sbW : Storyboard :=
  ⟨"Acme", "Bag", 8, "9:16",
    [⟨1, 3, "fade", promptW⟩, ⟨2, 5/2, "cut", promptW⟩, ⟨3, 2, "slide", promptW⟩]⟩

/-- Concrete frames matching `sbW`. -/
def framesW : List GeneratedFrame :=
  [⟨1, 0, "http://img/1", "/tmp/fabflow/j/frames/scene_01_frame_00.png"⟩,
   ⟨2, 0, "http://img/2", "/tmp/fabflow/j/frames/scene_02_frame_00.png"⟩,
   ⟨3, 0, "http://img/3", "/tmp/fabflow/j/frames/scene_03_frame_00.png"⟩]

/-- Witness for C1 at a concrete three-scene storyboard. -/
theorem c1_xfade_transition_offsets_witness :
    (build_ffmpeg_xfades framesW sbW true).length = sbW.scenes.length - 1 ∧
    (∀ s rest, sbW.scenes = s :: rest →
      (build_ffmpeg_xfades framesW sbW true).map XfadeOp.offset =
        spec_offsets s.duration
          (sbW.scenes.dropLast.map (fun t => get_transition_duration t.transition))
          ((sbW.scenes.drop 1).map Scene.duration)) ∧
    (∀ op ∈ build_ffmpeg_xfades framesW sbW true, 0 ≤ op.offset) :=
  c1_xfade_transition_offsets framesW sbW rfl (by decide)

/-! ## fibo_client.py: error taxonomy and the `with_retry` wrapper -/

/-- Model of `FIBOError` (and its subclasses) from `fibo_client.py`:
a message, an error code, and the retryable flag. -/
structure FIBOErr where
  message : String
  code : String
  retryable : Bool
deriving DecidableEq

/-- Outcome of one attempt of a wrapped operation: a successful return, a
raised `FIBOError`, or a raised `httpx` transport error
(`TimeoutException` / `RequestError`), which the wrapper always treats as
retryable. -/
inductive AttemptOutcome (α : Type) where
  | success (value : α)
  | fiboFailure (e : FIBOErr)
  | transportFailure (message : String)

/-- Terminal failure of the retry wrapper: either a non-retryable
`FIBOError` re-raised as-is, or a `FIBORetryExhaustedError` carrying a
message and the last underlying error (a `FIBOError` or a transport
error message). -/
inductive RetryFailure where
  | fiboRaised (e : FIBOErr)
  | exhausted (message : String) (last_error : Option (FIBOErr ⊕ String))
deriving DecidableEq

/-- Observable trace of one run of the retry wrapper: the final result,
the list of back-off delays passed to `asyncio.sleep` in order, and the
number of attempts made. -/
structure RetryTrace (α : Type) where
  result : Except RetryFailure α
  sleeps : List ℚ
  attempts : Nat

/-- Whether an attempt outcome is a failure the wrapper retries:
a `FIBOError` with `retryable=True`, or any transport error. -/
def retryableFailure {α : Type} : AttemptOutcome α → Bool
  | .success _ => false
  | .fiboFailure e => e.retryable
  | .transportFailure _ => true

/-- The `last_error` recorded for an attempt outcome. -/
def lastErrorOf {α : Type} : AttemptOutcome α → Option (FIBOErr ⊕ String)
  | .success _ => none
  | .fiboFailure e => some (.inl e)
  | .transportFailure m => some (.inr m)

/-- Message of the `FIBORetryExhaustedError` raised when the failing
attempt was the given outcome. -/
def exhaustMessage (max_retries : Nat) {α : Type} : AttemptOutcome α → String
  | .fiboFailure e => "Failed after " ++ toString max_retries ++ " retries: " ++ e.message
  | .transportFailure m => "Failed after " ++ toString max_retries ++ " retries: " ++ m
  | .success _ => "Failed after " ++ toString max_retries ++ " retries"

/-- Loop of the `with_retry` wrapper from `fibo_client.py`, one step per
iteration of `for attempt in range(max_retries + 1)`.  `fuel` is the
number of loop iterations still available (`max_retries + 1 - attempt`);
the fuel-0 case is the unreachable fall-through after the loop. -/
def with_retry_go {α : Type} (op : Nat → AttemptOutcome α) (max_retries : Nat)
    (base_delay max_delay : ℚ) : Nat → Nat → RetryTrace α
  | _, 0 =>
      ⟨.error (.exhausted ("Failed after " ++ toString max_retries ++ " retries") none), [], 0⟩
  | attempt, fuel + 1 =>
      match op attempt with
      | .success v => ⟨.ok v, [], 1⟩
      | .fiboFailure e =>
          if e.retryable = false then
            ⟨.error (.fiboRaised e), [], 1⟩
          else if max_retries ≤ attempt then
            ⟨.error (.exhausted ("Failed after " ++ toString max_retries ++ " retries: " ++ e.message)
              (some (.inl e))), [], 1⟩
          else
            let rest := with_retry_go op max_retries base_delay max_delay (attempt + 1) fuel
            ⟨rest.result, min (base_delay * 2 ^ attempt) max_delay :: rest.sleeps, rest.attempts + 1⟩
      | .transportFailure msg =>
          if max_retries ≤ attempt then
            ⟨.error (.exhausted ("Failed after " ++ toString max_retries ++ " retries: " ++ msg)
              (some (.inr msg))), [], 1⟩
          else
            let rest := with_retry_go op max_retries base_delay max_delay (attempt + 1) fuel
            ⟨rest.result, min (base_delay * 2 ^ attempt) max_delay :: rest.sleeps, rest.attempts + 1⟩

/-- Model of `with_retry(max_retries, base_delay, max_delay)` applied to
an operation whose attempt outcomes are given by `op`. -/
def with_retry {α : Type} (op : Nat → AttemptOutcome α) (max_retries : Nat)
    (base_delay max_delay : ℚ) : RetryTrace α :=
  with_retry_go op max_retries base_delay max_delay 0 (max_retries + 1)

theorem with_retry_go_attempts_le {α : Type} (op : Nat → AttemptOutcome α)
    (max_retries : Nat) (base_delay max_delay : ℚ) :
    ∀ fuel attempt, (with_retry_go op max_retries base_delay max_delay attempt fuel).attempts ≤ fuel := by
  intro fuel
  induction fuel with
  | zero => intro attempt; simp [with_retry_go]
  | succ fuel ih =>
      intro attempt
      cases hop : op attempt with
      | success v => simp [with_retry_go, hop]
      | fiboFailure e =>
          by_cases hr : e.retryable = false
          · simp [with_retry_go, hop, hr]
          · by_cases ha : max_retries ≤ attempt
            · simp [with_retry_go, hop, hr, ha]
            · simpa [with_retry_go, hop, hr, ha] using ih (attempt + 1)
      | transportFailure m =>
          by_cases ha : max_retries ≤ attempt
          · simp [with_retry_go, hop, ha]
          · simpa [with_retry_go, hop, ha] using ih (attempt + 1)

theorem with_retry_go_retry_step {α : Type} (op : Nat → AttemptOutcome α)
    (max_retries : Nat) (base_delay max_delay : ℚ) (attempt fuel : Nat)
    (hf : retryableFailure (op attempt) = true) (hlt : attempt < max_retries) :
    with_retry_go op max_retries base_delay max_delay attempt (fuel + 1) =
      ⟨(with_retry_go op max_retries base_delay max_delay (attempt + 1) fuel).result,
       min (base_delay * 2 ^ attempt) max_delay ::
         (with_retry_go op max_retries base_delay max_delay (attempt + 1) fuel).sleeps,
       (with_retry_go op max_retries base_delay max_delay (attempt + 1) fuel).attempts + 1⟩ := by
  cases hop : op attempt with
  | success v => rw [hop] at hf; simp [retryableFailure] at hf
  | fiboFailure e =>
      have hr : e.retryable = true := by rw [hop] at hf; exact hf
      simp [with_retry_go, hop, hr, Nat.not_le.mpr hlt]
  | transportFailure msg =>
      simp [with_retry_go, hop, Nat.not_le.mpr hlt]

theorem with_retry_go_success {α : Type} (op : Nat → AttemptOutcome α)
    (max_retries : Nat) (base_delay max_delay : ℚ) (v : α) :
    ∀ m attempt fuel,
      (∀ j < m, retryableFailure (op (attempt + j)) = true) →
      op (attempt + m) = .success v →
      attempt + m ≤ max_retries →
      m < fuel →
      with_retry_go op max_retries base_delay max_delay attempt fuel =
        ⟨.ok v, (List.range m).map (fun j => min (base_delay * 2 ^ (attempt + j)) max_delay), m + 1⟩ := by
  intro m
  induction m with
  | zero =>
      intro attempt fuel _ hsucc _ hfuel
      cases fuel with
      | zero => omega
      | succ f =>
          simp only [Nat.add_zero] at hsucc
          simp [with_retry_go, hsucc]
  | succ m ih =>
      intro attempt fuel hfail hsucc hle hfuel
      cases fuel with
      | zero => omega
      | succ f =>
          have hf0 : retryableFailure (op attempt) = true := by
            simpa using hfail 0 (Nat.succ_pos m)
          have hlt : attempt < max_retries := by omega
          have hrest : with_retry_go op max_retries base_delay max_delay (attempt + 1) f =
              ⟨.ok v, (List.range m).map (fun j => min (base_delay * 2 ^ (attempt + 1 + j)) max_delay), m + 1⟩ := by
            refine ih (attempt + 1) f ?_ ?_ (by omega) (by omega)
            · intro j hj
              have := hfail (j + 1) (by omega)
              simpa [Nat.add_assoc, Nat.add_comm 1 j] using this
            · have : attempt + 1 + m = attempt + (m + 1) := by omega
              rw [this]; exact hsucc
          have hmap : (List.range (m + 1)).map (fun j => min (base_delay * 2 ^ (attempt + j)) max_delay) =
              min (base_delay * 2 ^ attempt) max_delay ::
                (List.range m).map (fun j => min (base_delay * 2 ^ (attempt + 1 + j)) max_delay) := by
            rw [List.range_succ_eq_map, List.map_cons, List.map_map]
            simp only [Nat.add_zero]
            refine congrArg _ (List.map_congr_left ?_)
            intro j _
            have : attempt + (j + 1) = attempt + 1 + j := by omega
            simp [Function.comp, this]
          rw [with_retry_go_retry_step op max_retries base_delay max_delay attempt f hf0 hlt,
            hrest, hmap]

theorem with_retry_go_exhausted {α : Type} (op : Nat → AttemptOutcome α)
    (max_retries : Nat) (base_delay max_delay : ℚ)
    (hall : ∀ k ≤ max_retries, retryableFailure (op k) = true) :
    ∀ fuel attempt, attempt + fuel = max_retries →
      (with_retry_go op max_retries base_delay max_delay attempt (fuel + 1)).result =
        .error (.exhausted (exhaustMessage max_retries (op max_retries)) (lastErrorOf (op max_retries))) ∧
      (with_retry_go op max_retries base_delay max_delay attempt (fuel + 1)).attempts = fuel + 1 := by
  intro fuel
  induction fuel with
  | zero =>
      intro attempt hsum
      simp only [Nat.add_zero] at hsum
      subst hsum
      have hf := hall attempt le_rfl
      cases hop : op attempt with
      | success v => rw [hop] at hf; simp [retryableFailure] at hf
      | fiboFailure e =>
          rw [hop] at hf
          have hr : e.retryable = true := hf
          simp [with_retry_go, hop, hr, exhaustMessage, lastErrorOf]
      | transportFailure msg =>
          simp [with_retry_go, hop, exhaustMessage, lastErrorOf]
  | succ fuel ih =>
      intro attempt hsum
      have hlt : attempt < max_retries := by omega
      have hf := hall attempt (by omega)
      obtain ⟨hres, hatt⟩ := ih (attempt + 1) (by omega)
      rw [with_retry_go_retry_step op max_retries base_delay max_delay attempt (fuel + 1) hf hlt]
      exact ⟨hres, by simp [hatt]⟩

/-- C2: a retryable failure at zero-based attempt `j` (with attempts
remaining) makes the wrapper sleep `min(base_delay * 2^j, max_delay)` and
retry; an operation that fails retryably on attempts `0..m-1` and
succeeds on attempt `m ≤ max_retries` yields the success value after
exactly `m + 1` attempts with exactly the sleeps
`min(base_delay * 2^0, max_delay), ..., min(base_delay * 2^(m-1), max_delay)`
(so two retryable failures then success under `max_retries = 3` return
the success result after sleeping `base_delay` then `2 * base_delay`,
each capped at `max_delay`); and no wrapped operation ever makes more
than `max_retries + 1` attempts. -/
theorem c2_retry_backoff {α : Type} (op : Nat → AttemptOutcome α) (max_retries : Nat)
    (base_delay max_delay : ℚ) (m : Nat) (v : α)
    (hfail : ∀ j < m, retryableFailure (op j) = true)
    (hsucc : op m = .success v)
    (hm : m ≤ max_retries) :
    with_retry op max_retries base_delay max_delay =
      ⟨.ok v, (List.range m).map (fun j => min (base_delay * 2 ^ j) max_delay), m + 1⟩ ∧
    ∀ (op2 : Nat → AttemptOutcome α),
      (with_retry op2 max_retries base_delay max_delay).attempts ≤ max_retries + 1 := by
  constructor
  · have := with_retry_go_success op max_retries base_delay max_delay v m 0 (max_retries + 1)
      (by simpa using hfail) (by simpa using hsucc) (by omega) (by omega)
    simpa [with_retry] using this
  · intro op2
    exact with_retry_go_attempts_le op2 max_retries base_delay max_delay (max_retries + 1) 0

/-- Operation for the C2 witness: two retryable API failures, then
success. -/
def opC2 : Nat → AttemptOutcome Nat := fun k =>
  if k < 2 then .fiboFailure ⟨"FIBO API error: 503", "FIBO_API_ERROR", true⟩ else .success 42

/-- Witness for C2: under `max_retries = 3`, `base_delay = 1`,
`max_delay = 10`, the operation that fails twice retryably succeeds on
the third attempt with sleeps `[1, 2]`. -/
theorem c2_retry_backoff_witness :
    (with_retry opC2 3 1 10 =
      ⟨.ok 42, (List.range 2).map (fun j => min ((1 : ℚ) * 2 ^ j) 10), 2 + 1⟩ ∧
    ∀ (op2 : Nat → AttemptOutcome Nat), (with_retry op2 3 1 10).attempts ≤ 3 + 1) :=
  c2_retry_backoff opC2 3 1 10 2 42 (by decide) rfl (by decide)

/-- C3: a non-retryable failure on the first attempt is re-raised
immediately after exactly one attempt with no sleep; and if every
attempt `0..max_retries` fails retryably, the wrapper makes exactly
`max_retries + 1` attempts and raises the distinct retries-exhausted
error carrying the last underlying error (that of attempt
`max_retries`). -/
theorem c3_retry_terminal {α : Type} (op : Nat → AttemptOutcome α) (max_retries : Nat)
    (base_delay max_delay : ℚ) :
    (∀ e, op 0 = .fiboFailure e → e.retryable = false →
      with_retry op max_retries base_delay max_delay = ⟨.error (.fiboRaised e), [], 1⟩) ∧
    ((∀ k ≤ max_retries, retryableFailure (op k) = true) →
      (with_retry op max_retries base_delay max_delay).result =
        .error (.exhausted (exhaustMessage max_retries (op max_retries)) (lastErrorOf (op max_retries))) ∧
      (with_retry op max_retries base_delay max_delay).attempts = max_retries + 1) := by
  constructor
  · intro e h0 hr
    simp [with_retry, with_retry_go, h0, hr]
  · intro hall
    exact with_retry_go_exhausted op max_retries base_delay max_delay hall max_retries 0 (by omega)

/-- Operation for the first half of the C3 witness: a non-retryable 401
failure. -/
def opC3a : Nat → AttemptOutcome Nat := fun _ =>
  .fiboFailure ⟨"Invalid FIBO API key", "FIBO_API_ERROR", false⟩

/-- Operation for the second half of the C3 witness: transport timeouts
on every attempt. -/
def opC3b : Nat → AttemptOutcome Nat := fun _ =>
  .transportFailure "Request to FIBO API timed out"

/-- Witness for C3 at concrete operations: one non-retryable attempt, and
a fully exhausted retry run. -/
theorem c3_retry_terminal_witness :
    (with_retry opC3a 3 1 10 =
      ⟨.error (.fiboRaised ⟨"Invalid FIBO API key", "FIBO_API_ERROR", false⟩), [], 1⟩) ∧
    ((with_retry opC3b 3 1 10).result =
      .error (.exhausted (exhaustMessage 3 (opC3b 3)) (lastErrorOf (opC3b 3))) ∧
     (with_retry opC3b 3 1 10).attempts = 3 + 1) :=
  ⟨(c3_retry_terminal opC3a 3 1 10).1 _ rfl rfl,
   (c3_retry_terminal opC3b 3 1 10).2 (by decide)⟩

/-! ## parameter_modification.py: the dot-path modification engine

The engine performs generic Python attribute/dict traversal
(`getattr`/`setattr`/`hasattr` in `_get_nested_value` and
`_set_nested_value`).  We embed the traversed values untyped: `PValue`
is a Python value; a pydantic model or dict becomes `PValue.obj` with an
ordered attribute list.  Builtin attributes of leaf values (string
methods and the like) are not modelled, and the Python `KeyError` message
text is simplified; only attributes declared on the models exist. -/

/-- Untyped Python value as seen by the modification engine. -/
inductive PValue where
  | str (s : String)
  | int (n : Int)
  | rat (q : ℚ)
  | bool (b : Bool)
  | listStr (l : List String)
  | noneV
  | obj (fields : List (String × PValue))

/-- Shallow equality test used for `scene_number in target_scenes`
membership; scene numbers are scalar values, so object equality is not
needed (two `obj` values compare unequal here). -/
def pvalEqShallow (a b : PValue) : Bool :=
  match a, b with
  | .int x, .int y => x == y
  | .str x, .str y => x == y
  | .rat x, .rat y => x == y
  | .bool x, .bool y => x == y
  | .listStr x, .listStr y => x == y
  | .noneV, .noneV => true
  | _, _ => false

/-- Python `in` over a list of values. -/
def pvalMem (x : PValue) (l : List PValue) : Bool :=
  l.any (fun y => pvalEqShallow x y)

/-- Attribute lookup (`getattr` after `hasattr`, or dict indexing). -/
def objGet : List (String × PValue) → String → Option PValue
  | [], _ => none
  | (k0, v0) :: rest, k => if k0 = k then some v0 else objGet rest k

/-- Attribute update (`setattr` on an existing attribute, or dict entry
assignment on an existing key), preserving attribute order. -/
def objSet : List (String × PValue) → String → PValue → List (String × PValue)
  | [], _, _ => []
  | (k0, v0) :: rest, k, v => if k0 = k then (k0, v) :: rest else (k0, v0) :: objSet rest k v

/-- Model of `path.split(".")`: split a string at every dot. -/
def splitDotsAux : List Char → List Char → List String
  | [], acc => [String.mk acc.reverse]
  | c :: cs, acc =>
      if c = '.' then String.mk acc.reverse :: splitDotsAux cs []
      else splitDotsAux cs (c :: acc)

/-- Path splitting used by `_get_nested_value` / `_set_nested_value`. -/
def splitPath (path : String) : List String := splitDotsAux path.data []

/-- Model of `str.startswith`. -/
def str_starts_with (s pre : String) : Bool := List.isPrefixOf pre.data s.data

/-- Model of `_set_nested_value` from `parameter_modification.py` on the
already-split path: navigate attribute segments to the parent, then set
the final attribute; a segment that does not exist raises `KeyError`
(modelled as `.error`).  Navigation never mutates; only the final
assignment does, so a failing call leaves the object unchanged. -/
def setPathVal : PValue → List String → PValue → Except String PValue
  | .obj fields, [part], value =>
      if (objGet fields part).isSome then .ok (.obj (objSet fields part value))
      else .error ("Path not found: " ++ part ++ " does not exist")
  | .obj fields, part :: rest, value =>
      match objGet fields part with
      | some child =>
          match setPathVal child rest value with
          | .ok child2 => .ok (.obj (objSet fields part child2))
          | .error e => .error e
      | none => .error ("Path not found: " ++ part ++ " does not exist")
  | _, part :: _, _ => .error ("Path not found: " ++ part ++ " does not exist")
  | _, [], _ => .error "Path not found: empty path"

/-! ### models.py (v2 models: `SceneParameters` and `EnhancedStoryboard`) -/

/-- Model of `CameraParams` from `models.py`. -/
structure CameraParams where
  angle : String
  shot_type : String
deriving DecidableEq

/-- Model of `LightingParams` from `models.py`. -/
structure LightingParams where
  style : String
  direction : String
  intensity : String
deriving DecidableEq

/-- Model of `CompositionParams` from `models.py`. -/
structure CompositionParams where
  subject_position : String
  background : String
  depth_of_field : String
deriving DecidableEq

/-- Model of `StyleParams` from `models.py`. -/
structure StyleParams where
  color_palette : List String
  material : Option String
  mood : String
  aesthetic : String
deriving DecidableEq

/-- Model of `SceneParameters` from `models.py`. -/
structure SceneParameters where
  scene_number : Int
  duration : ℚ
  scene_description : String
  camera : CameraParams
  lighting : LightingParams
  composition : CompositionParams
  style : StyleParams
  transition : String
deriving DecidableEq

/-- Model of `EnhancedStoryboard` from `models.py`
(`aspect` models `aspect_ratio`). -/
structure EnhancedStoryboard where
  brand_name : String
  product_name : String
  total_duration : Int
  aspect : String
  scenes : List SceneParameters
  global_material : Option String
  global_color_palette : Option (List String)
deriving DecidableEq

/-- A Python `Optional[str]` attribute value. -/
def optStrV : Option String → PValue
  | some s => .str s
  | none => .noneV

/-- A Python `Optional[list[str]]` attribute value. -/
def optListStrV : Option (List String) → PValue
  | some l => .listStr l
  | none => .noneV

/-- Attribute view of a `SceneParameters` pydantic model as seen by the
generic traversal, fields in declaration order. -/
def sceneFields (p : SceneParameters) : List (String × PValue) :=
  [("scene_number", .int p.scene_number),
   ("duration", .rat p.duration),
   ("scene_description", .str p.scene_description),
   ("camera", .obj [("angle", .str p.camera.angle), ("shot_type", .str p.camera.shot_type)]),
   ("lighting", .obj [("style", .str p.lighting.style), ("direction", .str p.lighting.direction),
     ("intensity", .str p.lighting.intensity)]),
   ("composition", .obj [("subject_position", .str p.composition.subject_position),
     ("background", .str p.composition.background),
     ("depth_of_field", .str p.composition.depth_of_field)]),
   ("style", .obj [("color_palette", .listStr p.style.color_palette),
     ("material", optStrV p.style.material),
     ("mood", .str p.style.mood), ("aesthetic", .str p.style.aesthetic)]),
   ("transition", .str p.transition)]

/-- A `SceneParameters` model as an untyped attribute object. -/
def sceneObj (p : SceneParameters) : PValue := .obj (sceneFields p)

/-- Attribute names of `SceneParameters` (keys of `sceneFields`). -/
def topAttrs : List String :=
  ["scene_number", "duration", "scene_description", "camera", "lighting",
   "composition", "style", "transition"]

/-- Attribute names of each nested parameter model. -/
def subAttrs : String → Option (List String)
  | "camera" => some ["angle", "shot_type"]
  | "lighting" => some ["style", "direction", "intensity"]
  | "composition" => some ["subject_position", "background", "depth_of_field"]
  | "style" => some ["color_palette", "material", "mood", "aesthetic"]
  | _ => none

/-- Whether a split dot path addresses an attribute that exists on the
`SceneParameters` structure (resolvable by the nested traversal). -/
def wfPartsOk : List String → Bool
  | [p] => decide (p ∈ topAttrs)
  | [p, q] =>
      match subAttrs p with
      | some l => decide (q ∈ l)
      | none => false
  | _ => false

/-! ### the modification engine itself -/

/-- Model of `ParameterModification` from `parameter_modification.py`. -/
structure ParameterModification where
  parameter_path : String
  new_value : PValue
  apply_to_scenes : List Int

/-- Model of `ModificationResult` from `parameter_modification.py`.
`modified_scenes` / `frames_to_regenerate` carry the appended
`scene_number` values (ints for well-formed storyboards); pydantic
re-validation of the result model is not modelled. -/
structure ModificationResult where
  success : Bool
  modified_scenes : List PValue
  frames_to_regenerate : List PValue
  preserved_parameters : List (PValue × List (String × PValue))
  error : Option String

/-- Python `scene.scene_number`; a missing attribute raises
(`AttributeError`, caught by the generic handler of the engine). -/
def sceneNumberOf : PValue → Except String PValue
  | .obj fields =>
      match objGet fields "scene_number" with
      | some v => .ok v
      | none => .error "Failed to apply modification: scene has no scene_number"
  | _ => .error "Failed to apply modification: scene is not an object"

/-- Python `scene.attr`; a missing attribute raises. -/
def sceneAttr (scene : PValue) (part : String) : Except String PValue :=
  match scene with
  | .obj fields =>
      match objGet fields part with
      | some v => .ok v
      | none => .error ("Failed to apply modification: missing attribute " ++ part)
  | _ => .error ("Failed to apply modification: missing attribute " ++ part)

/-- Python `scene.a.b`. -/
def sceneAttr2 (scene : PValue) (p1 p2 : String) : Except String PValue := do
  sceneAttr (← sceneAttr scene p1) p2

/-- The fixed list of `(path, value)` pairs read by
`_extract_preserved_parameters`, in source order. -/
def paramPathValues (scene : PValue) : Except String (List (String × PValue)) := do
  let ca ← sceneAttr2 scene "camera" "angle"
  let cs ← sceneAttr2 scene "camera" "shot_type"
  let ls ← sceneAttr2 scene "lighting" "style"
  let ld ← sceneAttr2 scene "lighting" "direction"
  let li ← sceneAttr2 scene "lighting" "intensity"
  let cp ← sceneAttr2 scene "composition" "subject_position"
  let cb ← sceneAttr2 scene "composition" "background"
  let cd ← sceneAttr2 scene "composition" "depth_of_field"
  let scp ← sceneAttr2 scene "style" "color_palette"
  let sm ← sceneAttr2 scene "style" "material"
  let smo ← sceneAttr2 scene "style" "mood"
  let sae ← sceneAttr2 scene "style" "aesthetic"
  let sd ← sceneAttr scene "scene_description"
  let du ← sceneAttr scene "duration"
  let tr ← sceneAttr scene "transition"
  return [("camera.angle", ca), ("camera.shot_type", cs), ("lighting.style", ls),
    ("lighting.direction", ld), ("lighting.intensity", li),
    ("composition.subject_position", cp), ("composition.background", cb),
    ("composition.depth_of_field", cd), ("style.color_palette", scp),
    ("style.material", sm), ("style.mood", smo), ("style.aesthetic", sae),
    ("scene_description", sd), ("duration", du), ("transition", tr)]

/-- Model of `_extract_preserved_parameters`: snapshot every parameter
except the modified path. -/
def extract_preserved_parameters (scene : PValue) (modified_path : String) :
    Except String (List (String × PValue)) := do
  let pairs ← paramPathValues scene
  return pairs.filter (fun pr => pr.1 ≠ modified_path)

/-- Per-scene loop of `apply_parameter_modification` (used for both the
scene-level branch and the two global branches, which perform the same
snapshot/set/append steps with a fixed path): returns the processed
scene list, the appended `modified_scenes` numbers, the appended
preserved snapshots, and the first raised error, if any.  On an error
the scenes processed so far keep their modifications (the partially
mutated deep copy is what the source returns) and the remaining scenes
are unchanged. -/
def sceneLoop (full_path : String) (parts : List String) (value : PValue)
    (targets : List PValue) :
    List PValue → List PValue × List PValue × List (PValue × List (String × PValue)) × Option String
  | [] => ([], [], [], none)
  | scene :: rest =>
      match sceneNumberOf scene with
      | .error e => (scene :: rest, [], [], some e)
      | .ok num =>
          if pvalMem num targets then
            match extract_preserved_parameters scene full_path with
            | .error e => (scene :: rest, [], [], some e)
            | .ok snapshot =>
                match setPathVal scene parts value with
                | .error e => (scene :: rest, [], [], some e)
                | .ok scene2 =>
                    match sceneLoop full_path parts value targets rest with
                    | (rs, ms, ps, er) => (scene2 :: rs, num :: ms, (num, snapshot) :: ps, er)
          else
            match sceneLoop full_path parts value targets rest with
            | (rs, ms, ps, er) => (scene :: rs, ms, ps, er)

/-- Attribute view of an `EnhancedStoryboard` as held by the engine
(only the fields the engine touches are object-encoded: the scenes and
the two global override fields). -/
structure EnhancedStoryboardObj where
  brand_name : String
  product_name : String
  total_duration : Int
  aspect : String
  scenes : List PValue
  global_material : PValue
  global_color_palette : PValue

/-- An `EnhancedStoryboard` model as seen by the engine. -/
def storyboardObj (sb : EnhancedStoryboard) : EnhancedStoryboardObj :=
  ⟨sb.brand_name, sb.product_name, sb.total_duration, sb.aspect,
   sb.scenes.map sceneObj, optStrV sb.global_material, optListStrV sb.global_color_palette⟩

/-- Model of the list comprehension
`[scene.scene_number for scene in modified_storyboard.scenes]`. -/
def scene_numbers_of : List PValue → Except String (List PValue)
  | [] => .ok []
  | scene :: rest => do
      let n ← sceneNumberOf scene
      let ns ← scene_numbers_of rest
      return n :: ns

/-- Target-scene computation of `apply_parameter_modification`: an
explicit non-empty `apply_to_scenes` list, otherwise the number of every
scene.  (In the source this runs before the `try` block; a malformed
scene would propagate an exception there, which cannot happen for
pydantic-validated storyboards — modelled as an error result.) -/
def target_scenes_of (storyboard : EnhancedStoryboardObj)
    (modification : ParameterModification) : Except String (List PValue) :=
  if modification.apply_to_scenes.isEmpty then
    scene_numbers_of storyboard.scenes
  else
    .ok (modification.apply_to_scenes.map PValue.int)

/-- Model of `apply_parameter_modification` from
`parameter_modification.py`.  The source deep-copies the storyboard and
mutates the copy; in this pure embedding the input value is untouched by
construction, and the returned storyboard is the mutated copy. -/
def apply_parameter_modification (storyboard : EnhancedStoryboardObj)
    (modification : ParameterModification) :
    EnhancedStoryboardObj × ModificationResult :=
  match target_scenes_of storyboard modification with
  | .error e => (storyboard, ⟨false, [], [], [], some e⟩)
  | .ok targets =>
      if str_starts_with modification.parameter_path "global_" then
        if modification.parameter_path = "global_material" then
          let sb1 := { storyboard with global_material := modification.new_value }
          match sceneLoop "style.material" ["style", "material"] modification.new_value
              targets storyboard.scenes with
          | (rs, _, _, some e) => ({ sb1 with scenes := rs }, ⟨false, [], [], [], some e⟩)
          | (rs, ms, ps, none) => ({ sb1 with scenes := rs }, ⟨true, ms, ms, ps, none⟩)
        else if modification.parameter_path = "global_color_palette" then
          let sb1 := { storyboard with global_color_palette := modification.new_value }
          match sceneLoop "style.color_palette" ["style", "color_palette"] modification.new_value
              targets storyboard.scenes with
          | (rs, _, _, some e) => ({ sb1 with scenes := rs }, ⟨false, [], [], [], some e⟩)
          | (rs, ms, ps, none) => ({ sb1 with scenes := rs }, ⟨true, ms, ms, ps, none⟩)
        else
          (storyboard,
           ⟨false, [], [], [], some ("Unknown global parameter: " ++ modification.parameter_path)⟩)
      else
        match sceneLoop modification.parameter_path (splitPath modification.parameter_path)
            modification.new_value targets storyboard.scenes with
        | (rs, _, _, some e) => ({ storyboard with scenes := rs }, ⟨false, [], [], [], some e⟩)
        | (rs, ms, ps, none) => ({ storyboard with scenes := rs }, ⟨true, ms, ms, ps, none⟩)

/-! ### C4: modifying `style.material` of scene 2 -/

/-- The `SceneParameters` value after setting `style.material`. -/
def setSceneMaterial (s : SceneParameters) (m : String) : SceneParameters :=
  { s with style := { s.style with material := some m } }

/-- The 14 preserved `(path, value)` pairs when `style.material` is the
modified path, taken from the pre-modification scene. -/
def preservedMaterialPairs (s : SceneParameters) : List (String × PValue) :=
  [("camera.angle", .str s.camera.angle), ("camera.shot_type", .str s.camera.shot_type),
   ("lighting.style", .str s.lighting.style), ("lighting.direction", .str s.lighting.direction),
   ("lighting.intensity", .str s.lighting.intensity),
   ("composition.subject_position", .str s.composition.subject_position),
   ("composition.background", .str s.composition.background),
   ("composition.depth_of_field", .str s.composition.depth_of_field),
   ("style.color_palette", .listStr s.style.color_palette),
   ("style.mood", .str s.style.mood), ("style.aesthetic", .str s.style.aesthetic),
   ("scene_description", .str s.scene_description), ("duration", .rat s.duration),
   ("transition", .str s.transition)]

theorem sceneNumberOf_sceneObj (s : SceneParameters) :
    sceneNumberOf (sceneObj s) = .ok (.int s.scene_number) := rfl

theorem extract_material_sceneObj (s : SceneParameters) :
    extract_preserved_parameters (sceneObj s) "style.material" = .ok (preservedMaterialPairs s) := rfl

theorem setPath_material_sceneObj (s : SceneParameters) (m : String) :
    setPathVal (sceneObj s) ["style", "material"] (.str m) =
      .ok (sceneObj (setSceneMaterial s m)) := rfl

theorem pvalMem_int_single (n k : Int) :
    pvalMem (.int n) [.int k] = (n == k) := by
  simp [pvalMem, pvalEqShallow]

theorem sceneLoop_material (m : String) (k : Int) (l : List SceneParameters) :
    sceneLoop "style.material" ["style", "material"] (.str m) [.int k] (l.map sceneObj) =
      (l.map (fun s => if s.scene_number = k then sceneObj (setSceneMaterial s m) else sceneObj s),
       (l.filter (fun s => s.scene_number = k)).map (fun s => PValue.int s.scene_number),
       (l.filter (fun s => s.scene_number = k)).map
         (fun s => (PValue.int s.scene_number, preservedMaterialPairs s)),
       none) := by
  induction l with
  | nil => simp [sceneLoop]
  | cons s l ih =>
      by_cases hs : s.scene_number = k
      · simp [sceneLoop, sceneNumberOf_sceneObj, pvalMem_int_single, hs,
          extract_material_sceneObj, setPath_material_sceneObj, ih, List.filter_cons]
      · simp [sceneLoop, sceneNumberOf_sceneObj, pvalMem_int_single, hs, ih, List.filter_cons]

/-- C4: applying the modification `style.material := "leather"` to target
scenes `[2]` succeeds; in the returned storyboard exactly the scenes
numbered 2 differ, and only in `style.material`; the preserved-parameters
snapshot records, per modified scene, the other 14 parameters with their
pre-modification values; and the input storyboard value is untouched (the
engine works on a deep copy, embedded here as a pure function). -/
theorem c4_material_copy_on_write (sb : EnhancedStoryboard) :
    (apply_parameter_modification (storyboardObj sb) ⟨"style.material", .str "leather", [2]⟩).2.success = true ∧
    (apply_parameter_modification (storyboardObj sb) ⟨"style.material", .str "leather", [2]⟩).1 =
      { storyboardObj sb with
          scenes := sb.scenes.map (fun s =>
            if s.scene_number = 2 then sceneObj (setSceneMaterial s "leather") else sceneObj s) } ∧
    (apply_parameter_modification (storyboardObj sb) ⟨"style.material", .str "leather", [2]⟩).2.preserved_parameters =
      (sb.scenes.filter (fun s => s.scene_number = 2)).map
        (fun s => (PValue.int s.scene_number, preservedMaterialPairs s)) ∧
    (apply_parameter_modification (storyboardObj sb) ⟨"style.material", .str "leather", [2]⟩).2.modified_scenes =
      (sb.scenes.filter (fun s => s.scene_number = 2)).map (fun s => PValue.int s.scene_number) ∧
    (apply_parameter_modification (storyboardObj sb) ⟨"style.material", .str "leather", [2]⟩).2.frames_to_regenerate =
      (sb.scenes.filter (fun s => s.scene_number = 2)).map (fun s => PValue.int s.scene_number) := by
  have hsplit : splitPath "style.material" = ["style", "material"] := by decide
  have hpre : str_starts_with "style.material" "global_" = false := by decide
  have happ : apply_parameter_modification (storyboardObj sb) ⟨"style.material", .str "leather", [2]⟩ =
      ({ storyboardObj sb with
          scenes := sb.scenes.map (fun s =>
            if s.scene_number = 2 then sceneObj (setSceneMaterial s "leather") else sceneObj s) },
       ⟨true,
        (sb.scenes.filter (fun s => s.scene_number = 2)).map (fun s => PValue.int s.scene_number),
        (sb.scenes.filter (fun s => s.scene_number = 2)).map (fun s => PValue.int s.scene_number),
        (sb.scenes.filter (fun s => s.scene_number = 2)).map
          (fun s => (PValue.int s.scene_number, preservedMaterialPairs s)),
        none⟩) := by
    simp only [apply_parameter_modification, target_scenes_of, storyboardObj, hpre, hsplit,
      List.isEmpty_cons, Bool.false_eq_true, if_false, List.map_cons, List.map_nil,
      sceneLoop_material]
  rw [happ]
  exact ⟨rfl, rfl, rfl, rfl, rfl⟩

/-! ### C9 and C10: addressing errors and absent target scenes -/

theorem append_left_ne_empty (a b : String) (ha : a.length ≠ 0) : (a ++ b) ≠ "" := by
  intro h
  have hl := congrArg String.length h
  rw [String.length_append] at hl
  have h0 : ("" : String).length = 0 := rfl
  omega

theorem pathMsg_ne (part : String) :
    ("Path not found: " ++ part ++ " does not exist") ≠ "" := by
  refine append_left_ne_empty _ _ ?_
  rw [String.length_append]
  have h16 : ("Path not found: " : String).length = 16 := rfl
  omega

theorem objGet_eq_none (fields : List (String × PValue)) (k : String)
    (h : k ∉ fields.map Prod.fst) : objGet fields k = none := by
  induction fields with
  | nil => rfl
  | cons f rest ih =>
      obtain ⟨k0, v0⟩ := f
      simp only [List.map_cons, List.mem_cons] at h
      push_neg at h
      have hne : k0 ≠ k := fun heq => h.1 heq.symm
      simp [objGet, hne, ih h.2]

/-- Whether a Python value is a scalar (non-object). -/
def leafV : PValue → Bool
  | .obj _ => false
  | _ => true

/-- Whether every attribute of an object holds a scalar. -/
def flatFields (fields : List (String × PValue)) : Bool :=
  fields.all (fun f => leafV f.2)

theorem setPathVal_leaf (v : PValue) (hl : leafV v = true) (part : String)
    (rest : List String) (v' : PValue) :
    setPathVal v (part :: rest) v' = .error ("Path not found: " ++ part ++ " does not exist") := by
  cases v with
  | obj fields => simp [leafV] at hl
  | str s => cases rest <;> rfl
  | int n => cases rest <;> rfl
  | rat q => cases rest <;> rfl
  | bool b => cases rest <;> rfl
  | listStr l => cases rest <;> rfl
  | noneV => cases rest <;> rfl

theorem setPath_top_none (fields : List (String × PValue)) (p : String)
    (hg : objGet fields p = none) (parts2 : List String) (v : PValue) :
    setPathVal (.obj fields) (p :: parts2) v =
      .error ("Path not found: " ++ p ++ " does not exist") := by
  cases parts2 with
  | nil => simp [setPathVal, hg]
  | cons q rest => simp [setPathVal, hg]

theorem setPath_child_err (fields : List (String × PValue)) (p : String) (child : PValue)
    (hg : objGet fields p = some child) (q : String) (rest : List String) (v : PValue)
    (e : String) (he : setPathVal child (q :: rest) v = .error e) :
    setPathVal (.obj fields) (p :: q :: rest) v = .error e := by
  simp [setPathVal, hg, he]

theorem objGet_leaf_of_flat (fields : List (String × PValue)) (hf : flatFields fields = true)
    (k : String) (ch : PValue) (h : objGet fields k = some ch) : leafV ch = true := by
  induction fields with
  | nil => simp [objGet] at h
  | cons f rest ih =>
      obtain ⟨k0, v0⟩ := f
      simp only [flatFields, List.all_cons, Bool.and_eq_true] at hf
      by_cases hk : k0 = k
      · simp [objGet, hk] at h
        exact h ▸ hf.1
      · exact ih hf.2 (by simpa [objGet, hk] using h)

theorem setPathVal_flat (fields : List (String × PValue)) (hf : flatFields fields = true)
    (p q : String) (rest : List String) (v : PValue) :
    ∃ msg, setPathVal (.obj fields) (p :: q :: rest) v = .error msg ∧ msg ≠ "" := by
  cases hg : objGet fields p with
  | none => exact ⟨_, setPath_top_none fields p hg (q :: rest) v, pathMsg_ne p⟩
  | some ch =>
      have hl := objGet_leaf_of_flat fields hf p ch hg
      exact ⟨_, setPath_child_err fields p ch hg q rest v _ (setPathVal_leaf ch hl q rest v),
        pathMsg_ne q⟩

theorem flatFields_style (s : SceneParameters) :
    flatFields [("color_palette", .listStr s.style.color_palette),
      ("material", optStrV s.style.material),
      ("mood", .str s.style.mood), ("aesthetic", .str s.style.aesthetic)] = true := by
  cases s.style.material <;> simp [flatFields, leafV, optStrV]

/-- Central addressing lemma: on a scene with the `SceneParameters`
attribute structure, a split path that `wfPartsOk` rejects makes
`_set_nested_value` raise, with a non-empty message. -/
theorem setPath_sceneObj_not_wf (parts : List String) (hw : wfPartsOk parts = false)
    (s : SceneParameters) (v : PValue) :
    ∃ msg, setPathVal (sceneObj s) parts v = .error msg ∧ msg ≠ "" := by
  cases parts with
  | nil => exact ⟨_, rfl, by decide⟩
  | cons p parts2 =>
      by_cases hp : p ∈ topAttrs
      · cases parts2 with
        | nil => simp [wfPartsOk, hp] at hw
        | cons q rest =>
            simp only [topAttrs, List.mem_cons, List.not_mem_nil, or_false] at hp
            rcases hp with rfl | rfl | rfl | rfl | rfl | rfl | rfl | rfl
            · exact ⟨_, setPath_child_err (sceneFields s) "scene_number" (.int s.scene_number)
                rfl q rest v _ (setPathVal_leaf (.int s.scene_number) rfl q rest v), pathMsg_ne q⟩
            · exact ⟨_, setPath_child_err (sceneFields s) "duration" (.rat s.duration)
                rfl q rest v _ (setPathVal_leaf (.rat s.duration) rfl q rest v), pathMsg_ne q⟩
            · exact ⟨_, setPath_child_err (sceneFields s) "scene_description"
                (.str s.scene_description) rfl q rest v _
                (setPathVal_leaf (.str s.scene_description) rfl q rest v), pathMsg_ne q⟩
            · -- camera
              cases rest with
              | nil =>
                  have hq : q ∉ ["angle", "shot_type"] := by
                    simpa [wfPartsOk, subAttrs] using hw
                  have hn : objGet [("angle", PValue.str s.camera.angle),
                      ("shot_type", PValue.str s.camera.shot_type)] q = none :=
                    objGet_eq_none _ q (by simpa using hq)
                  refine ⟨_, setPath_child_err (sceneFields s) "camera"
                    (.obj [("angle", PValue.str s.camera.angle),
                      ("shot_type", PValue.str s.camera.shot_type)]) rfl q [] v _ ?_,
                    pathMsg_ne q⟩
                  simp [setPathVal, hn]
              | cons r rs =>
                  obtain ⟨msg, hmsg, hne⟩ := setPathVal_flat
                    [("angle", PValue.str s.camera.angle),
                     ("shot_type", PValue.str s.camera.shot_type)] (by simp [flatFields, leafV])
                    q r rs v
                  exact ⟨msg, setPath_child_err (sceneFields s) "camera"
                    (.obj [("angle", PValue.str s.camera.angle),
                      ("shot_type", PValue.str s.camera.shot_type)]) rfl q (r :: rs) v msg hmsg,
                    hne⟩
            · -- lighting
              cases rest with
              | nil =>
                  have hq : q ∉ ["style", "direction", "intensity"] := by
                    simpa [wfPartsOk, subAttrs] using hw
                  have hn : objGet [("style", PValue.str s.lighting.style),
                      ("direction", PValue.str s.lighting.direction),
                      ("intensity", PValue.str s.lighting.intensity)] q = none :=
                    objGet_eq_none _ q (by simpa using hq)
                  refine ⟨_, setPath_child_err (sceneFields s) "lighting"
                    (.obj [("style", PValue.str s.lighting.style),
                      ("direction", PValue.str s.lighting.direction),
                      ("intensity", PValue.str s.lighting.intensity)]) rfl q [] v _ ?_,
                    pathMsg_ne q⟩
                  simp [setPathVal, hn]
              | cons r rs =>
                  obtain ⟨msg, hmsg, hne⟩ := setPathVal_flat
                    [("style", PValue.str s.lighting.style),
                     ("direction", PValue.str s.lighting.direction),
                     ("intensity", PValue.str s.lighting.intensity)] (by simp [flatFields, leafV])
                    q r rs v
                  exact ⟨msg, setPath_child_err (sceneFields s) "lighting"
                    (.obj [("style", PValue.str s.lighting.style),
                      ("direction", PValue.str s.lighting.direction),
                      ("intensity", PValue.str s.lighting.intensity)]) rfl q (r :: rs) v msg hmsg,
                    hne⟩
            · -- composition
              cases rest with
              | nil =>
                  have hq : q ∉ ["subject_position", "background", "depth_of_field"] := by
                    simpa [wfPartsOk, subAttrs] using hw
                  have hn : objGet [("subject_position", PValue.str s.composition.subject_position),
                      ("background", PValue.str s.composition.background),
                      ("depth_of_field", PValue.str s.composition.depth_of_field)] q = none :=
                    objGet_eq_none _ q (by simpa using hq)
                  refine ⟨_, setPath_child_err (sceneFields s) "composition"
                    (.obj [("subject_position", PValue.str s.composition.subject_position),
                      ("background", PValue.str s.composition.background),
                      ("depth_of_field", PValue.str s.composition.depth_of_field)]) rfl q [] v _ ?_,
                    pathMsg_ne q⟩
                  simp [setPathVal, hn]
              | cons r rs =>
                  obtain ⟨msg, hmsg, hne⟩ := setPathVal_flat
                    [("subject_position", PValue.str s.composition.subject_position),
                     ("background", PValue.str s.composition.background),
                     ("depth_of_field", PValue.str s.composition.depth_of_field)]
                    (by simp [flatFields, leafV]) q r rs v
                  exact ⟨msg, setPath_child_err (sceneFields s) "composition"
                    (.obj [("subject_position", PValue.str s.composition.subject_position),
                      ("background", PValue.str s.composition.background),
                      ("depth_of_field", PValue.str s.composition.depth_of_field)]) rfl q (r :: rs)
                    v msg hmsg, hne⟩
            · -- style
              cases rest with
              | nil =>
                  have hq : q ∉ ["color_palette", "material", "mood", "aesthetic"] := by
                    simpa [wfPartsOk, subAttrs] using hw
                  have hn : objGet [("color_palette", PValue.listStr s.style.color_palette),
                      ("material", optStrV s.style.material),
                      ("mood", PValue.str s.style.mood),
                      ("aesthetic", PValue.str s.style.aesthetic)] q = none :=
                    objGet_eq_none _ q (by simpa using hq)
                  refine ⟨_, setPath_child_err (sceneFields s) "style"
                    (.obj [("color_palette", PValue.listStr s.style.color_palette),
                      ("material", optStrV s.style.material),
                      ("mood", PValue.str s.style.mood),
                      ("aesthetic", PValue.str s.style.aesthetic)]) rfl q [] v _ ?_,
                    pathMsg_ne q⟩
                  simp [setPathVal, hn]
              | cons r rs =>
                  obtain ⟨msg, hmsg, hne⟩ := setPathVal_flat
                    [("color_palette", PValue.listStr s.style.color_palette),
                     ("material", optStrV s.style.material),
                     ("mood", PValue.str s.style.mood),
                     ("aesthetic", PValue.str s.style.aesthetic)] (flatFields_style s) q r rs v
                  exact ⟨msg, setPath_child_err (sceneFields s) "style"
                    (.obj [("color_palette", PValue.listStr s.style.color_palette),
                      ("material", optStrV s.style.material),
                      ("mood", PValue.str s.style.mood),
                      ("aesthetic", PValue.str s.style.aesthetic)]) rfl q (r :: rs) v msg hmsg,
                    hne⟩
            · exact ⟨_, setPath_child_err (sceneFields s) "transition" (.str s.transition)
                rfl q rest v _ (setPathVal_leaf (.str s.transition) rfl q rest v), pathMsg_ne q⟩
      · have hn : objGet (sceneFields s) p = none := objGet_eq_none _ p hp
        exact ⟨_, setPath_top_none (sceneFields s) p hn parts2 v, pathMsg_ne p⟩

/-- The 15 `(path, value)` pairs of `_extract_preserved_parameters` read
off a `SceneParameters` attribute object, in source order. -/
def scenePairsAll (s : SceneParameters) : List (String × PValue) :=
  [("camera.angle", .str s.camera.angle), ("camera.shot_type", .str s.camera.shot_type),
   ("lighting.style", .str s.lighting.style), ("lighting.direction", .str s.lighting.direction),
   ("lighting.intensity", .str s.lighting.intensity),
   ("composition.subject_position", .str s.composition.subject_position),
   ("composition.background", .str s.composition.background),
   ("composition.depth_of_field", .str s.composition.depth_of_field),
   ("style.color_palette", .listStr s.style.color_palette),
   ("style.material", optStrV s.style.material),
   ("style.mood", .str s.style.mood), ("style.aesthetic", .str s.style.aesthetic),
   ("scene_description", .str s.scene_description), ("duration", .rat s.duration),
   ("transition", .str s.transition)]

theorem extract_sceneObj (s : SceneParameters) (path : String) :
    extract_preserved_parameters (sceneObj s) path =
      .ok ((scenePairsAll s).filter (fun pr => pr.1 ≠ path)) := rfl

theorem pvalEqShallow_int (a b : Int) :
    pvalEqShallow (.int a) (.int b) = (a == b) := rfl

theorem pvalMem_int_map {β : Type} (f : β → Int) (l : List β) (n : Int) :
    pvalMem (.int n) (l.map (fun b => PValue.int (f b))) = true ↔ ∃ b ∈ l, f b = n := by
  induction l with
  | nil => simp [pvalMem]
  | cons b l ih =>
      simp only [List.map_cons, pvalMem, List.any_cons, Bool.or_eq_true] at ih ⊢
      rw [pvalEqShallow_int, beq_iff_eq, ih]
      constructor
      · rintro (h | ⟨b', hb', hf⟩)
        · exact ⟨b, List.mem_cons_self b l, h.symm⟩
        · exact ⟨b', List.mem_cons_of_mem b hb', hf⟩
      · rintro ⟨b', hb', hf⟩
        rcases List.mem_cons.mp hb' with rfl | hb'
        · exact Or.inl hf.symm
        · exact Or.inr ⟨b', hb', hf⟩

theorem scene_numbers_of_map (l : List SceneParameters) :
    scene_numbers_of (l.map sceneObj) = .ok (l.map (fun s => PValue.int s.scene_number)) := by
  induction l with
  | nil => rfl
  | cons s l ih =>
      simp only [List.map_cons, scene_numbers_of, sceneNumberOf_sceneObj, ih]
      rfl

theorem sceneLoop_wf_err (full : String) (parts : List String) (v : PValue)
    (tgts : List PValue) (hw : wfPartsOk parts = false) (l : List SceneParameters)
    (hex : ∃ s ∈ l, pvalMem (.int s.scene_number) tgts = true) :
    ∃ e, sceneLoop full parts v tgts (l.map sceneObj) = (l.map sceneObj, [], [], some e) ∧
      e ≠ "" := by
  induction l with
  | nil => simp at hex
  | cons s l ih =>
      by_cases hm : pvalMem (.int s.scene_number) tgts = true
      · obtain ⟨e, he, hne⟩ := setPath_sceneObj_not_wf parts hw s v
        refine ⟨e, ?_, hne⟩
        simp [sceneLoop, sceneNumberOf_sceneObj, hm, extract_sceneObj, he]
      · have hm' : pvalMem (.int s.scene_number) tgts = false := by
          simpa using hm
        have hex' : ∃ s' ∈ l, pvalMem (.int s'.scene_number) tgts = true := by
          rcases hex with ⟨s', hs', hmem⟩
          rcases List.mem_cons.mp hs' with rfl | h
          · exact absurd hmem hm
          · exact ⟨s', h, hmem⟩
        obtain ⟨e, he, hne⟩ := ih hex'
        exact ⟨e, by simp [sceneLoop, sceneNumberOf_sceneObj, hm', he], hne⟩

theorem sceneLoop_no_target (full : String) (parts : List String) (v : PValue)
    (tgts : List PValue) (l : List SceneParameters)
    (h : ∀ s ∈ l, pvalMem (.int s.scene_number) tgts = false) :
    sceneLoop full parts v tgts (l.map sceneObj) = (l.map sceneObj, [], [], none) := by
  induction l with
  | nil => simp [sceneLoop]
  | cons s l ih =>
      have hm := h s (List.mem_cons_self s l)
      have ih' := ih (fun s' hs' => h s' (List.mem_cons_of_mem s hs'))
      simp [sceneLoop, sceneNumberOf_sceneObj, hm, ih']

/-- The target list computed by the engine for a well-formed storyboard. -/
def resolved_targets (sb : EnhancedStoryboard) (m : ParameterModification) : List PValue :=
  if m.apply_to_scenes.isEmpty then
    sb.scenes.map (fun s => PValue.int s.scene_number)
  else
    m.apply_to_scenes.map PValue.int

theorem target_scenes_of_storyboardObj (sb : EnhancedStoryboard) (m : ParameterModification) :
    target_scenes_of (storyboardObj sb) m = .ok (resolved_targets sb m) := by
  by_cases he : m.apply_to_scenes.isEmpty
  · simp [target_scenes_of, resolved_targets, he, storyboardObj, scene_numbers_of_map]
  · simp [target_scenes_of, resolved_targets, he]

/-- C9: for a modification that targets at least one scene present in the
storyboard, an unknown `global_`-prefixed parameter name, or a dot path
with a segment that does not exist on the scene structure, produces a
failure result (`success = False`, non-empty error message) instead of an
exception, and the returned storyboard equals the input. -/
theorem c9_addressing_error (sb : EnhancedStoryboard) (m : ParameterModification)
    (htgt : ∃ s ∈ sb.scenes, m.apply_to_scenes = [] ∨ s.scene_number ∈ m.apply_to_scenes)
    (hpath : (str_starts_with m.parameter_path "global_" = true ∧
        m.parameter_path ≠ "global_material" ∧ m.parameter_path ≠ "global_color_palette") ∨
      (str_starts_with m.parameter_path "global_" = false ∧
        wfPartsOk (splitPath m.parameter_path) = false)) :
    (apply_parameter_modification (storyboardObj sb) m).2.success = false ∧
    (∃ msg, (apply_parameter_modification (storyboardObj sb) m).2.error = some msg ∧ msg ≠ "") ∧
    (apply_parameter_modification (storyboardObj sb) m).1 = storyboardObj sb := by
  have htargets := target_scenes_of_storyboardObj sb m
  rcases hpath with ⟨h1, h2, h3⟩ | ⟨h1, hw⟩
  · have happ : apply_parameter_modification (storyboardObj sb) m =
        (storyboardObj sb,
         ⟨false, [], [], [], some ("Unknown global parameter: " ++ m.parameter_path)⟩) := by
      simp only [apply_parameter_modification, htargets, h1, h2, h3, if_true, if_false]
    rw [happ]
    refine ⟨rfl, ⟨_, rfl, ?_⟩, rfl⟩
    refine append_left_ne_empty _ _ ?_
    have h26 : ("Unknown global parameter: " : String).length = 26 := rfl
    omega
  · have hmem : ∃ s ∈ sb.scenes,
        pvalMem (.int s.scene_number) (resolved_targets sb m) = true := by
      rcases htgt with ⟨s, hs, hcase⟩
      refine ⟨s, hs, ?_⟩
      rcases hcase with hemp | hin
      · have : m.apply_to_scenes.isEmpty = true := by simp [hemp]
        rw [resolved_targets, if_pos this]
        exact (pvalMem_int_map (fun s' => s'.scene_number) sb.scenes s.scene_number).mpr
          ⟨s, hs, rfl⟩
      · by_cases hemp : m.apply_to_scenes.isEmpty
        · simp [List.isEmpty_iff.mp hemp] at hin
        · rw [resolved_targets, if_neg hemp]
          exact (pvalMem_int_map (fun n => n) m.apply_to_scenes s.scene_number).mpr
            ⟨s.scene_number, hin, rfl⟩
    obtain ⟨e, he, hne⟩ := sceneLoop_wf_err m.parameter_path (splitPath m.parameter_path)
      m.new_value (resolved_targets sb m) hw sb.scenes hmem
    have happ : apply_parameter_modification (storyboardObj sb) m =
        ({ storyboardObj sb with scenes := sb.scenes.map sceneObj },
         ⟨false, [], [], [], some e⟩) := by
      simp only [apply_parameter_modification, htargets, h1, Bool.false_eq_true, if_false]
      rw [show (storyboardObj sb).scenes = sb.scenes.map sceneObj from rfl, he]
    rw [happ]
    exact ⟨rfl, ⟨e, rfl, hne⟩, rfl⟩

/-- C10: a non-`global_` modification (valid path or not) whose explicit
non-empty target list names no scene present in the storyboard succeeds
vacuously: empty `modified_scenes`, `frames_to_regenerate` and
`preserved_parameters`, no error, and the storyboard is returned
unchanged. -/
theorem c10_absent_targets_ignored (sb : EnhancedStoryboard) (m : ParameterModification)
    (hng : str_starts_with m.parameter_path "global_" = false)
    (hne : m.apply_to_scenes ≠ [])
    (habs : ∀ s ∈ sb.scenes, s.scene_number ∉ m.apply_to_scenes) :
    apply_parameter_modification (storyboardObj sb) m =
      (storyboardObj sb, ⟨true, [], [], [], none⟩) := by
  have htargets := target_scenes_of_storyboardObj sb m
  have hemp : m.apply_to_scenes.isEmpty = false := by
    simpa [List.isEmpty_iff] using hne
  have hloop := sceneLoop_no_target m.parameter_path (splitPath m.parameter_path) m.new_value
    (resolved_targets sb m) sb.scenes ?_
  · have happ : apply_parameter_modification (storyboardObj sb) m =
        ({ storyboardObj sb with scenes := sb.scenes.map sceneObj },
         ⟨true, [], [], [], none⟩) := by
      simp only [apply_parameter_modification, htargets, hng, Bool.false_eq_true, if_false]
      rw [show (storyboardObj sb).scenes = sb.scenes.map sceneObj from rfl, hloop]
    rw [happ]
    rfl
  · intro s hs
    rw [resolved_targets, if_neg (by simp [hemp])]
    by_contra hmem
    have := (pvalMem_int_map (fun n => n) m.apply_to_scenes s.scene_number).mp (by simpa using hmem)
    obtain ⟨b, hb, rfl⟩ := this
    exact habs s hs hb

/-- A concrete scene for the C9/C10 witnesses. -/
def scenePW (n : Int) : SceneParameters :=
  ⟨n, 2, "Product hero shot", ⟨"close-up", "product_hero"⟩,
   ⟨"soft-studio", "front", "medium"⟩, ⟨"center", "studio", "medium"⟩,
   ⟨["#FFFFFF"], some "fabric", "luxury", "professional"⟩, "cross-dissolve"⟩

/-- A concrete three-scene enhanced storyboard for the C9/C10 witnesses. -/
def sbPW : EnhancedStoryboard :=
  ⟨"Acme", "Bag", 8, "9:16", [scenePW 1, scenePW 2, scenePW 3], none, none⟩

/-- Witness for C9: the misspelled path `style.materiel` targeting scene 2
fails with a non-empty error and an unchanged storyboard. -/
theorem c9_addressing_error_witness :
    (apply_parameter_modification (storyboardObj sbPW)
      ⟨"style.materiel", .str "leather", [2]⟩).2.success = false ∧
    (∃ msg, (apply_parameter_modification (storyboardObj sbPW)
      ⟨"style.materiel", .str "leather", [2]⟩).2.error = some msg ∧ msg ≠ "") ∧
    (apply_parameter_modification (storyboardObj sbPW)
      ⟨"style.materiel", .str "leather", [2]⟩).1 = storyboardObj sbPW :=
  c9_addressing_error sbPW ⟨"style.materiel", .str "leather", [2]⟩
    (by decide) (Or.inr ⟨by decide, by decide⟩)

/-- Witness for C10: targeting only the absent scene 9 with a valid path
is a vacuous success. -/
theorem c10_absent_targets_ignored_witness :
    apply_parameter_modification (storyboardObj sbPW) ⟨"style.material", .str "velvet", [9]⟩ =
      (storyboardObj sbPW, ⟨true, [], [], [], none⟩) :=
  c10_absent_targets_ignored sbPW ⟨"style.material", .str "velvet", [9]⟩
    (by decide) (by decide) (by decide)

/-! ## fibo_translator.py: `FIBOStructuredPromptV2` and the round trip -/

/-- Model of `str.replace("-", "_")`: with a single-character pattern this
is a character map. -/
def hyphen_to_underscore (s : String) : String :=
  String.mk (s.data.map (fun c => if c = '-' then '_' else c))

/-- Model of `FIBOStructuredPromptV2` from `fibo_translator.py`; the four
`dict` fields are ordered key-value lists. -/
structure FIBOStructuredPromptV2 where
  scene_description : String
  camera : List (String × PValue)
  lighting : List (String × PValue)
  composition : List (String × PValue)
  style : List (String × PValue)

/-- Model of `FIBOStructuredPromptV2.from_scene_parameters`: translate
`SceneParameters` to the FIBO API shape, normalising the hyphenated
camera angle, lighting style and subject position to underscore form. -/
def from_scene_parameters (params : SceneParameters) : FIBOStructuredPromptV2 :=
  ⟨params.scene_description,
   [("angle", .str (hyphen_to_underscore params.camera.angle)),
    ("shot_type", .str params.camera.shot_type)],
   [("type", .str (hyphen_to_underscore params.lighting.style)),
    ("direction", .str params.lighting.direction),
    ("intensity", .str params.lighting.intensity)],
   [("subject_position", .str (hyphen_to_underscore params.composition.subject_position)),
    ("background", .str params.composition.background),
    ("depth_of_field", .str params.composition.depth_of_field)],
   [("color_palette", .listStr params.style.color_palette),
    ("material", optStrV params.style.material),
    ("mood", .str params.style.mood),
    ("aesthetic", .str params.style.aesthetic)]⟩

/-- Model of `FIBOStructuredPromptV2.to_api_payload`: the full request
payload with the `structured_prompt` object and generation parameters. -/
def to_api_payload (p : FIBOStructuredPromptV2) (a : String) : PValue :=
  .obj [("structured_prompt",
          .obj [("scene_description", .str p.scene_description),
                ("camera", .obj p.camera),
                ("lighting", .obj p.lighting),
                ("composition", .obj p.composition),
                ("style", .obj p.style)]),
        ("num_results", .int 1),
        ("aspect_ratio", .str a),
        ("sync", .bool true)]

/-- Model of `FIBOStructuredPromptV2.from_api_payload`: read the
`structured_prompt` object (falling back to the payload itself) and
rebuild the structure; shape mismatches are pydantic validation errors. -/
def from_api_payload (payload : PValue) : Except String FIBOStructuredPromptV2 :=
  match payload with
  | .obj fs =>
      match (objGet fs "structured_prompt").getD payload with
      | .obj sp =>
          match objGet sp "scene_description", objGet sp "camera", objGet sp "lighting",
              objGet sp "composition", objGet sp "style" with
          | some (.str sd), some (.obj c), some (.obj li), some (.obj co), some (.obj st) =>
              .ok ⟨sd, c, li, co, st⟩
          | _, _, _, _, _ => .error "invalid structured_prompt payload"
      | _ => .error "structured_prompt is not a dict"
  | _ => .error "payload is not a dict"

/-- C5: for every `SceneParameters` value and aspect ratio,
`from_api_payload (to_api_payload (from_scene_parameters p))` reproduces
`from_scene_parameters p` exactly; the three hyphenated enum fields
appear in underscore form (the translated side, hence both sides of the
round trip); and the normalisation is idempotent, so applying it once
during translation leaves it stable. -/
theorem c5_roundtrip_translation (p : SceneParameters) (a : String) :
    from_api_payload (to_api_payload (from_scene_parameters p) a) =
      .ok (from_scene_parameters p) ∧
    objGet (from_scene_parameters p).camera "angle" =
      some (.str (hyphen_to_underscore p.camera.angle)) ∧
    objGet (from_scene_parameters p).lighting "type" =
      some (.str (hyphen_to_underscore p.lighting.style)) ∧
    objGet (from_scene_parameters p).composition "subject_position" =
      some (.str (hyphen_to_underscore p.composition.subject_position)) ∧
    ∀ s : String, hyphen_to_underscore (hyphen_to_underscore s) = hyphen_to_underscore s := by
  refine ⟨rfl, rfl, rfl, rfl, ?_⟩
  intro s
  simp only [hyphen_to_underscore, List.map_map]
  refine congrArg String.mk (List.map_congr_left ?_)
  intro c _
  by_cases hc : c = '-' <;> simp [Function.comp, hc]

/-! ## frame_generator.py: per-scene generation and collection (C6) -/

/-- Outcome of the external work for one scene in
`generate_frames_for_scene`: the FIBO call produced an image URL and the
download succeeded or failed, or the FIBO call raised a `FIBOError`, or
some other exception was raised.  (The prompt text sent to the API does
not influence the control flow modelled here.) -/
inductive SceneGenOutcome where
  | generated (image_url : String) (download_ok : Bool)
  | fiboFail (e : FIBOErr)
  | otherFail (message : String)

/-- Model of `"; ".join`-style `str.join`. -/
def joinSep (sep : String) : List String → String
  | [] => ""
  | [x] => x
  | x :: xs => x ++ sep ++ joinSep sep xs

/-- Zero-padded scene number of the frame filename
(`f"scene_{n:02d}_frame_00.png"`). -/
def pad2 (n : Int) : String :=
  if 0 ≤ n ∧ n < 10 then "0" ++ toString n else toString n

/-- The frame filename for a scene. -/
def frame_filename (n : Int) : String := "scene_" ++ pad2 n ++ "_frame_00.png"

/-- Model of `generate_frames_for_scene`: one key frame per scene; a
download failure or an exception is recorded as a per-scene error, and
`success` holds iff no error was recorded. -/
def generate_frames_for_scene (scene : Scene) (outcome : SceneGenOutcome)
    (output_dir : String) : FrameGenerationResult :=
  match outcome with
  | .generated url ok =>
      if ok then
        ⟨true, [⟨scene.scene_number, 0, url, output_dir ++ "/" ++ frame_filename scene.scene_number⟩], []⟩
      else
        ⟨false, [], ["Failed to download frame for scene " ++ toString scene.scene_number]⟩
  | .fiboFail e =>
      ⟨false, [], ["Scene " ++ toString scene.scene_number ++ ": " ++ e.message]⟩
  | .otherFail m =>
      ⟨false, [], ["Scene " ++ toString scene.scene_number ++ ": Unexpected error - " ++ m]⟩

/-- Sort order used by `all_frames.sort(key=lambda f: (f.scene_number,
f.frame_index))`. -/
def frameKeyLE (a b : GeneratedFrame) : Prop :=
  a.scene_number < b.scene_number ∨
    (a.scene_number = b.scene_number ∧ a.frame_index ≤ b.frame_index)

instance : DecidableRel frameKeyLE := fun a b => by
  unfold frameKeyLE; infer_instance

instance : IsTotal GeneratedFrame frameKeyLE := ⟨by
  intro a b
  rcases lt_trichotomy a.scene_number b.scene_number with h | h | h
  · exact Or.inl (Or.inl h)
  · rcases le_total a.frame_index b.frame_index with h2 | h2
    · exact Or.inl (Or.inr ⟨h, h2⟩)
    · exact Or.inr (Or.inr ⟨h.symm, h2⟩)
  · exact Or.inr (Or.inl h)⟩

instance : IsTrans GeneratedFrame frameKeyLE := ⟨by
  intro a b c hab hbc
  rcases hab with h | ⟨h1, h2⟩
  · rcases hbc with h' | ⟨h1', _⟩
    · exact Or.inl (h.trans h')
    · exact Or.inl (h1' ▸ h)
  · rcases hbc with h' | ⟨h1', h2'⟩
    · exact Or.inl (h1 ▸ h')
    · exact Or.inr ⟨h1.trans h1', h2.trans h2'⟩⟩

/-- Model of `generate_all_frames`: process every scene in storyboard
order, collect frames and errors across all scenes, sort the frames by
`(scene_number, frame_index)` (a stable sort, like Python's), and
succeed iff no error was collected. -/
def generate_all_frames (storyboard : Storyboard) (gen : Scene → SceneGenOutcome)
    (output_dir : String) : FrameGenerationResult :=
  let all_frames := storyboard.scenes.flatMap
    (fun s => (generate_frames_for_scene s (gen s) output_dir).frames)
  let all_errors := storyboard.scenes.flatMap
    (fun s => (generate_frames_for_scene s (gen s) output_dir).errors)
  ⟨all_errors.isEmpty, List.insertionSort frameKeyLE all_frames, all_errors⟩

/-- C6: `generate_all_frames` collects the per-scene errors and frames of
every scene (it does not stop at the first failing scene), succeeds iff
the collected error list is empty, and returns the frames sorted by
`(scene_number, frame_index)`. -/
theorem c6_frame_collection (sb : Storyboard) (gen : Scene → SceneGenOutcome) (dir : String) :
    ((generate_all_frames sb gen dir).success = true ↔
      (generate_all_frames sb gen dir).errors = []) ∧
    (∀ s ∈ sb.scenes, ∀ e ∈ (generate_frames_for_scene s (gen s) dir).errors,
      e ∈ (generate_all_frames sb gen dir).errors) ∧
    (∀ s ∈ sb.scenes, ∀ f ∈ (generate_frames_for_scene s (gen s) dir).frames,
      f ∈ (generate_all_frames sb gen dir).frames) ∧
    List.Sorted frameKeyLE (generate_all_frames sb gen dir).frames := by
  refine ⟨?_, ?_, ?_, ?_⟩
  · simp [generate_all_frames, List.isEmpty_iff]
  · intro s hs e he
    simp only [generate_all_frames]
    exact List.mem_flatMap.mpr ⟨s, hs, he⟩
  · intro s hs f hf
    simp only [generate_all_frames]
    exact (List.mem_insertionSort frameKeyLE).mpr (List.mem_flatMap.mpr ⟨s, hs, hf⟩)
  · exact List.sorted_insertionSort frameKeyLE _

/-- Per-scene generation outcomes for the C6 witness: scene 2 fails with
an API error, the others succeed. -/
def genW : Scene → SceneGenOutcome := fun s =>
  if s.scene_number = 2 then .fiboFail ⟨"FIBO API error: 503", "FIBO_API_ERROR", true⟩
  else .generated "http://img/ok" true

/-- Witness for C6 on the concrete three-scene storyboard: the failing
scene's error is collected, a later scene's frame is still produced, and
the frame list is sorted. -/
theorem c6_frame_collection_witness :
    ((generate_all_frames sbW genW "/tmp/fabflow/j/frames").success = true ↔
      (generate_all_frames sbW genW "/tmp/fabflow/j/frames").errors = []) ∧
    ("Scene 2: FIBO API error: 503" ∈ (generate_all_frames sbW genW "/tmp/fabflow/j/frames").errors) ∧
    (⟨3, 0, "http://img/ok", "/tmp/fabflow/j/frames/scene_03_frame_00.png"⟩ ∈
      (generate_all_frames sbW genW "/tmp/fabflow/j/frames").frames) ∧
    List.Sorted frameKeyLE (generate_all_frames sbW genW "/tmp/fabflow/j/frames").frames := by
  obtain ⟨h1, h2, h3, h4⟩ := c6_frame_collection sbW genW "/tmp/fabflow/j/frames"
  refine ⟨h1, ?_, ?_, h4⟩
  · exact h2 ⟨2, 5/2, "cut", promptW⟩ (by simp [sbW]) _ (by decide)
  · exact h3 ⟨3, 2, "slide", promptW⟩ (by simp [sbW]) _ (by decide)

/-! ## main.py: the job pipeline orchestrator

Each run of a background pipeline task writes a sequence of `JobStatus`
records into the job table and at most one terminal `JobResult`.  The
writes and results are recorded as data; the storyboard step (which has
no result object and signals failure by raising) is abstracted by an
`Except` outcome, while frame generation and compositing report through
their own result objects, as in their sources. -/

/-- Model of the `JobStatus` record from `main.py`. -/
structure JobStatus where
  job_id : String
  stage : String
  progress : Int
  message : String
  error : Option String
deriving DecidableEq

/-- Model of the `JobResult` record from `main.py`. -/
structure JobResult where
  job_id : String
  success : Bool
  video_url : Option String
  duration : Option ℚ
  error : Option String
deriving DecidableEq

/-- Model of `CompositeResult` from `video_compositor.py`. -/
structure CompositeResult where
  success : Bool
  video_path : String
  video_url : String
  duration : ℚ
  error : Option String
deriving DecidableEq

/-- Model of `run_video_generation_pipeline` from `main.py`: the status
writes and the recorded `JobResult`, in order. -/
def run_video_generation_pipeline (job_id : String)
    (storyboard_outcome : Except String Unit) (frame_result : FrameGenerationResult)
    (composite_result : CompositeResult) : List JobStatus × Option JobResult :=
  let w1 : JobStatus := ⟨job_id, "storyboard", 10, "Generating storyboard...", none⟩
  match storyboard_outcome with
  | .error e =>
      ([w1, ⟨job_id, "error", 0, "Pipeline failed", some e⟩],
       some ⟨job_id, false, none, none, some e⟩)
  | .ok _ =>
      let w2 : JobStatus := ⟨job_id, "storyboard", 25, "Storyboard generated", none⟩
      let w3 : JobStatus := ⟨job_id, "frame-generation", 30, "Generating frames...", none⟩
      if frame_result.success = false then
        let error_msg :=
          if frame_result.errors.isEmpty = false then joinSep "; " frame_result.errors
          else "Frame generation failed"
        ([w1, w2, w3, ⟨job_id, "error", 0, "Frame generation failed", some error_msg⟩],
         some ⟨job_id, false, none, none, some error_msg⟩)
      else
        let w4 : JobStatus := ⟨job_id, "frame-generation", 70,
          "Generated " ++ toString frame_result.frames.length ++ " frames", none⟩
        let w5 : JobStatus := ⟨job_id, "compositing", 75, "Compositing video...", none⟩
        if composite_result.success = false then
          ([w1, w2, w3, w4, w5,
            ⟨job_id, "error", 0, "Video compositing failed", composite_result.error⟩],
           some ⟨job_id, false, none, none, composite_result.error⟩)
        else
          ([w1, w2, w3, w4, w5, ⟨job_id, "complete", 100, "Video generation complete", none⟩],
           some ⟨job_id, true, some composite_result.video_url,
             some composite_result.duration, none⟩)

theorem generate_frames_for_scene_errors_ne (s : Scene) (o : SceneGenOutcome) (dir : String) :
    ∀ e ∈ (generate_frames_for_scene s o dir).errors, e ≠ "" := by
  intro e he
  cases o with
  | generated url ok =>
      cases ok with
      | true => simp [generate_frames_for_scene] at he
      | false =>
          simp [generate_frames_for_scene] at he
          subst he
          refine append_left_ne_empty _ _ ?_
          decide
  | fiboFail err =>
      simp [generate_frames_for_scene] at he
      subst he
      refine append_left_ne_empty _ _ ?_
      rw [String.length_append, String.length_append]
      have h6 : ("Scene " : String).length = 6 := rfl
      omega
  | otherFail m =>
      simp [generate_frames_for_scene] at he
      subst he
      refine append_left_ne_empty _ _ ?_
      rw [String.length_append, String.length_append]
      have h6 : ("Scene " : String).length = 6 := rfl
      omega

theorem generate_all_frames_errors_ne (sb : Storyboard) (gen : Scene → SceneGenOutcome)
    (dir : String) : ∀ e ∈ (generate_all_frames sb gen dir).errors, e ≠ "" := by
  intro e he
  simp only [generate_all_frames] at he
  obtain ⟨s, _, hs⟩ := List.mem_flatMap.mp he
  exact generate_frames_for_scene_errors_ne s (gen s) dir e hs

theorem joinSep_ne_empty (sep : String) (l : List String) (hl : l ≠ [])
    (h : ∀ e ∈ l, e ≠ "") : joinSep sep l ≠ "" := by
  cases l with
  | nil => exact absurd rfl hl
  | cons x xs =>
      cases xs with
      | nil => exact h x (List.mem_cons_self x [])
      | cons y ys =>
          show (x ++ sep ++ joinSep sep (y :: ys)) ≠ ""
          refine append_left_ne_empty _ _ ?_
          rw [String.length_append]
          have hx : x ≠ "" := h x (List.mem_cons_self x (y :: ys))
          have hxl : x.length ≠ 0 := by
            intro h0
            apply hx
            cases x with
            | mk data =>
                cases data with
                | nil => rfl
                | cons c cs => simp [String.length] at h0
          omega

/-- C7: when the storyboard stage succeeded and frame generation (run as
`generate_all_frames`) returns an unsuccessful result, the pipeline
writes an `error`-stage status with a non-empty error message, records a
`JobResult` with `success = False` and the same non-empty error, and
never writes a `compositing`-stage status in that run. -/
theorem c7_frame_failure_terminal (job_id dir : String) (sb : Storyboard)
    (gen : Scene → SceneGenOutcome) (comp : CompositeResult)
    (hfail : (generate_all_frames sb gen dir).success = false) :
    (∃ st ∈ (run_video_generation_pipeline job_id (.ok ())
        (generate_all_frames sb gen dir) comp).1,
      st.stage = "error" ∧ ∃ msg, st.error = some msg ∧ msg ≠ "") ∧
    (∃ msg, (run_video_generation_pipeline job_id (.ok ())
        (generate_all_frames sb gen dir) comp).2 =
      some ⟨job_id, false, none, none, some msg⟩ ∧ msg ≠ "") ∧
    (∀ st ∈ (run_video_generation_pipeline job_id (.ok ())
        (generate_all_frames sb gen dir) comp).1,
      st.stage ≠ "compositing") := by
  have herrne : (generate_all_frames sb gen dir).errors ≠ [] := by
    intro h0
    rw [show (generate_all_frames sb gen dir).success =
      (generate_all_frames sb gen dir).errors.isEmpty from rfl, h0] at hfail
    simp at hfail
  have hemp : (generate_all_frames sb gen dir).errors.isEmpty = false := by
    rcases h : (generate_all_frames sb gen dir).errors.isEmpty with _ | _
    · rfl
    · exact absurd (List.isEmpty_iff.mp h) herrne
  have hmsgne : joinSep "; " (generate_all_frames sb gen dir).errors ≠ "" :=
    joinSep_ne_empty "; " _ herrne (generate_all_frames_errors_ne sb gen dir)
  have hrun : run_video_generation_pipeline job_id (.ok ())
      (generate_all_frames sb gen dir) comp =
      ([⟨job_id, "storyboard", 10, "Generating storyboard...", none⟩,
        ⟨job_id, "storyboard", 25, "Storyboard generated", none⟩,
        ⟨job_id, "frame-generation", 30, "Generating frames...", none⟩,
        ⟨job_id, "error", 0, "Frame generation failed",
          some (joinSep "; " (generate_all_frames sb gen dir).errors)⟩],
       some ⟨job_id, false, none, none,
         some (joinSep "; " (generate_all_frames sb gen dir).errors)⟩) := by
    simp [run_video_generation_pipeline, hfail, hemp]
  rw [hrun]
  refine ⟨⟨⟨job_id, "error", 0, "Frame generation failed",
      some (joinSep "; " (generate_all_frames sb gen dir).errors)⟩, by simp, rfl,
      _, rfl, hmsgne⟩,
    ⟨_, rfl, hmsgne⟩, ?_⟩
  intro st hst
  simp only [List.mem_cons, List.not_mem_nil, or_false] at hst
  rcases hst with rfl | rfl | rfl | rfl <;> simp

/-- Frame result and generation oracle for the C7 witness: scene 2 fails
to download, so the overall frame result is unsuccessful. -/
def genW7 : Scene → SceneGenOutcome := fun s =>
  if s.scene_number = 2 then .generated "http://img/2" false
  else .generated "http://img/ok" true

/-- Composite result used by witnesses (a successful encode). -/
def compOK : CompositeResult :=
  ⟨true, "/tmp/fabflow/j/output/j.mp4", "/api/videos/j.mp4", 8, none⟩

/-- Witness for C7 at a concrete failing frame-generation run. -/
theorem c7_frame_failure_terminal_witness :
    (∃ st ∈ (run_video_generation_pipeline "job-1" (.ok ())
        (generate_all_frames sbW genW7 "/tmp/f") compOK).1,
      st.stage = "error" ∧ ∃ msg, st.error = some msg ∧ msg ≠ "") ∧
    (∃ msg, (run_video_generation_pipeline "job-1" (.ok ())
        (generate_all_frames sbW genW7 "/tmp/f") compOK).2 =
      some ⟨"job-1", false, none, none, some msg⟩ ∧ msg ≠ "") ∧
    (∀ st ∈ (run_video_generation_pipeline "job-1" (.ok ())
        (generate_all_frames sbW genW7 "/tmp/f") compOK).1,
      st.stage ≠ "compositing") :=
  c7_frame_failure_terminal "job-1" "/tmp/f" sbW genW7 compOK (by decide)

/-! ## C8: stage progression over a job's lifetime -/

/-- Model of `run_video_generation_pipeline_v2` from `main.py`: identical
stage/progress structure to the v1 pipeline, with the v2 messages. -/
def run_video_generation_pipeline_v2 (job_id : String)
    (storyboard_outcome : Except String Unit) (frame_result : FrameGenerationResult)
    (composite_result : CompositeResult) : List JobStatus × Option JobResult :=
  let w1 : JobStatus := ⟨job_id, "storyboard", 10, "Generating enhanced storyboard...", none⟩
  match storyboard_outcome with
  | .error e =>
      ([w1, ⟨job_id, "error", 0, "Pipeline failed", some e⟩],
       some ⟨job_id, false, none, none, some e⟩)
  | .ok _ =>
      let w2 : JobStatus := ⟨job_id, "storyboard", 25, "Enhanced storyboard generated", none⟩
      let w3 : JobStatus := ⟨job_id, "frame-generation", 30,
        "Generating frames with structured prompts...", none⟩
      if frame_result.success = false then
        let error_msg :=
          if frame_result.errors.isEmpty = false then joinSep "; " frame_result.errors
          else "Frame generation failed"
        ([w1, w2, w3, ⟨job_id, "error", 0, "Frame generation failed", some error_msg⟩],
         some ⟨job_id, false, none, none, some error_msg⟩)
      else
        let w4 : JobStatus := ⟨job_id, "frame-generation", 70,
          "Generated " ++ toString frame_result.frames.length ++ " frames", none⟩
        let w5 : JobStatus := ⟨job_id, "compositing", 75, "Compositing video...", none⟩
        if composite_result.success = false then
          ([w1, w2, w3, w4, w5,
            ⟨job_id, "error", 0, "Video compositing failed", composite_result.error⟩],
           some ⟨job_id, false, none, none, composite_result.error⟩)
        else
          ([w1, w2, w3, w4, w5, ⟨job_id, "complete", 100, "Video generation complete", none⟩],
           some ⟨job_id, true, some composite_result.video_url,
             some composite_result.duration, none⟩)

/-- The status record written at job submission. -/
def queued_status (job_id : String) : JobStatus := ⟨job_id, "queued", 0, "Job queued", none⟩

/-- Status write of `modify_parameter_endpoint` after a successful
modification with frames to regenerate. -/
def modify_parameter_status_writes (job_id : String) (result : ModificationResult) :
    List JobStatus :=
  if result.frames_to_regenerate.isEmpty = false then
    [⟨job_id, "frame-generation", 50,
      "Regenerating " ++ toString result.frames_to_regenerate.length ++ " frames...", none⟩]
  else []

/-- Status writes of the `regenerate_frames_for_modification` background
task; its frame-regeneration work (`EnhancedFrameGenerator`, imported by
`main.py` but outside the embedded modules) is abstracted by an
`Except` outcome — only the status writes of `main.py` are modelled. -/
def regenerate_frames_status_writes (job_id : String) (scenes_to_regenerate : List PValue)
    (outcome : Except String Unit) : List JobStatus :=
  match outcome with
  | .ok _ =>
      [⟨job_id, "complete", 100,
        "Regenerated " ++ toString scenes_to_regenerate.length ++ " frames", none⟩]
  | .error e => [⟨job_id, "error", 0, "Frame regeneration failed", some e⟩]

/-- The status-record sequence over a v2 job's lifetime when the pipeline
runs to completion and the caller then applies a successful parameter
modification whose affected frames are regenerated. -/
def job_lifetime_with_modification (job_id : String) (fr : FrameGenerationResult)
    (comp : CompositeResult) (sb : EnhancedStoryboardObj) (m : ParameterModification)
    (regen_outcome : Except String Unit) : List JobStatus :=
  queued_status job_id :: (run_video_generation_pipeline_v2 job_id (.ok ()) fr comp).1 ++
    modify_parameter_status_writes job_id (apply_parameter_modification sb m).2 ++
    (if (apply_parameter_modification sb m).2.frames_to_regenerate.isEmpty = false then
      regenerate_frames_status_writes job_id
        (apply_parameter_modification sb m).2.frames_to_regenerate regen_outcome
     else [])

/-- Rank of a stage in the claimed forward progression; `error` (and any
other string) has no rank and is exempt. -/
def stageRank (stage : String) : Option Nat :=
  if stage = "queued" then some 0
  else if stage = "storyboard" then some 1
  else if stage = "frame-generation" then some 2
  else if stage = "compositing" then some 3
  else if stage = "complete" then some 4
  else none

/-- One step of the claimed forward progression: between two ranked
stages the rank must not decrease. -/
def forwardStepB (a b : JobStatus) : Bool :=
  match stageRank a.stage, stageRank b.stage with
  | some ra, some rb => decide (ra ≤ rb)
  | _, _ => true

/-- All adjacent pairs of a status trace satisfy a step predicate. -/
def adjacentOk (f : JobStatus → JobStatus → Bool) : List JobStatus → Bool
  | [] => true
  | [_] => true
  | a :: b :: t => f a b && adjacentOk f (b :: t)

/-- A status record before any terminal stage is reached. -/
def nonTerminal (st : JobStatus) : Bool :=
  !(st.stage == "error" || st.stage == "complete")

/-- The claimed invariant over a job's status-record sequence: stages
progress strictly forward (with `error` exempt) and progress is
non-decreasing until a terminal stage is reached. -/
def spec_c8_trace (t : List JobStatus) : Prop :=
  adjacentOk forwardStepB t = true ∧
  adjacentOk (fun a b => decide (a.progress ≤ b.progress)) (t.takeWhile nonTerminal) = true

/-- A successful frame-generation result used by the C8 counterexample. -/
def frOK : FrameGenerationResult := ⟨true, framesW, []⟩

/-- C8 counterexample: a job that completes and then receives a
successful `style.material` modification moves `complete → frame-generation`
(progress 100 → 50), a backward stage transition; the lifetime trace
violates the claimed forward progression. -/
theorem c8_counterexample :
    ¬ spec_c8_trace (job_lifetime_with_modification "job-1" frOK compOK
      (storyboardObj sbPW) ⟨"style.material", .str "leather", [2]⟩ (.ok ())) := by
  unfold spec_c8_trace
  decide

/-- C8 amended: within a single run of the generation pipeline background
task (v1 or v2), from the `queued` write at submission to the terminal
write, stages follow the forward progression
queued → storyboard → frame-generation → compositing → complete with
`error` reachable from any stage, and progress is non-decreasing until a
terminal stage is reached; the parameter-modification endpoint, however,
re-enters `frame-generation` at progress 50 on an already-complete job,
the one backward transition. -/
theorem c8_single_run_forward (job_id : String) (sbres : Except String Unit)
    (fr : FrameGenerationResult) (comp : CompositeResult) :
    spec_c8_trace (queued_status job_id ::
      (run_video_generation_pipeline job_id sbres fr comp).1) ∧
    spec_c8_trace (queued_status job_id ::
      (run_video_generation_pipeline_v2 job_id sbres fr comp).1) := by
  constructor
  · cases sbres with
    | error e =>
        simp [spec_c8_trace, run_video_generation_pipeline, queued_status, adjacentOk,
          forwardStepB, stageRank, nonTerminal, List.takeWhile]
    | ok u =>
        by_cases hfr : fr.success = false
        · simp [spec_c8_trace, run_video_generation_pipeline, queued_status, adjacentOk,
            forwardStepB, stageRank, nonTerminal, List.takeWhile, hfr]
        · by_cases hc : comp.success = false
          · simp [spec_c8_trace, run_video_generation_pipeline, queued_status, adjacentOk,
              forwardStepB, stageRank, nonTerminal, List.takeWhile, hfr, hc]
          · simp [spec_c8_trace, run_video_generation_pipeline, queued_status, adjacentOk,
              forwardStepB, stageRank, nonTerminal, List.takeWhile, hfr, hc]
  · cases sbres with
    | error e =>
        simp [spec_c8_trace, run_video_generation_pipeline_v2, queued_status, adjacentOk,
          forwardStepB, stageRank, nonTerminal, List.takeWhile]
    | ok u =>
        by_cases hfr : fr.success = false
        · simp [spec_c8_trace, run_video_generation_pipeline_v2, queued_status, adjacentOk,
            forwardStepB, stageRank, nonTerminal, List.takeWhile, hfr]
        · by_cases hc : comp.success = false
          · simp [spec_c8_trace, run_video_generation_pipeline_v2, queued_status, adjacentOk,
              forwardStepB, stageRank, nonTerminal, List.takeWhile, hfr, hc]
          · simp [spec_c8_trace, run_video_generation_pipeline_v2, queued_status, adjacentOk,
              forwardStepB, stageRank, nonTerminal, List.takeWhile, hfr, hc]

end FabFlow
